import Mathlib

/-!
Verification of the feed-fetch-and-cache component (`NewsFeedManager` in
`news_feed_plugin.py`) against its natural-language specification.

The Python code is shallowly embedded:

* Python/JSON values are modelled by the inductive `Json` (JSON numbers are
  modelled as integers; no claim involves numeric payload data).
* The backing store file is modelled by `FileState`: absent, present with
  invalid JSON, or present with a parsed JSON document.  The standard-library
  `json.dump`/`json.load` serialization layer is external to the repository
  and is modelled at the JSON-value level: a successful `json.dump` of a
  value followed by `json.load` recovers that value.
* The per-sensor network interaction of `update_news_data`
  (`requests.get` / `raise_for_status` / `response.json()`) is modelled by a
  `FetchResult` per configured sensor, in sensor order.
* Python exceptions are modelled with `Except PyError`; the dynamic
  operations used by the code (subscripting `d[k]`, `dict.get`, iteration,
  truthiness, `f"{k}: {v}"` string conversion) are modelled faithfully,
  including which exception they raise on which shape of value.
-/

/-- JSON / parsed-Python values.  Object fields keep insertion order, as
Python dicts do.  Numbers are modelled as integers. -/
inductive Json where
  | null
  | bool (b : Bool)
  | num (n : Int)
  | str (s : String)
  | arr (elems : List Json)
  | obj (fields : List (String × Json))

/-- The Python exceptions the embedded code can raise. -/
inductive PyError where
  | keyError
  | typeError
  | attributeError
  | runtimeError
  | transportError
  | httpStatusError
  | jsonDecodeError
  deriving DecidableEq

/-- State of the backing store file (`self.output_file`). -/
inductive FileState where
  | absent
  | invalid
  | json (value : Json)

/-- Outcome of the network interaction for one sensor inside
`update_news_data`: `requests.get` raising, `raise_for_status` raising on a
non-2xx status, `response.json()` raising, or a parsed response body. -/
inductive FetchResult where
  | transportError
  | httpError
  | jsonError
  | ok (body : Json)

/-- Field lookup on a JSON object; `none` when the value is not an object or
the key is missing.  (Specification-side helper, not a Python operation.) -/
def objGet? (j : Json) (k : String) : Option Json :=
  match j with
  | .obj fields => (fields.find? (fun p => p.1 == k)).map (fun p => p.2)
  | _ => none

/-- Python subscript `j[k]` with a string key: `KeyError` on a dict missing
the key, `TypeError` on any non-dict value. -/
def jsonIndex (j : Json) (k : String) : Except PyError Json :=
  match j with
  | .obj fields =>
      match fields.find? (fun p => p.1 == k) with
      | some p => .ok p.2
      | none => .error .keyError
  | _ => .error .typeError

/-- Python `j.get(k, d)`: only dicts have `.get`; any other value raises
`AttributeError`. -/
def dictGet (j : Json) (k : String) (d : Json) : Except PyError Json :=
  match j with
  | .obj fields => .ok (((fields.find? (fun p => p.1 == k)).map (fun p => p.2)).getD d)
  | _ => .error .attributeError

/-- Python iteration `for x in j`: lists yield elements, dicts yield keys,
strings yield one-character strings, everything else raises `TypeError`. -/
def pyIter (j : Json) : Except PyError (List Json) :=
  match j with
  | .arr xs => .ok xs
  | .obj fields => .ok (fields.map (fun p => Json.str p.1))
  | .str s => .ok (s.toList.map (fun c => Json.str (String.singleton c)))
  | _ => .error .typeError

/-- Python truthiness `bool(j)` as used by `if not file_contents`. -/
def pyFalsy (j : Json) : Bool :=
  match j with
  | .null => true
  | .bool b => !b
  | .num n => n == 0
  | .str s => s == ""
  | .arr xs => xs.isEmpty
  | .obj fields => fields.isEmpty

/-- One character of Python `repr` string escaping (common cases: backslash,
the quote character, newline, carriage return, tab; other characters are
kept literally). -/
def pyEscapeChar (c : Char) : String :=
  if c.val == 92 then "\\\\"
  else if c.val == 39 then "\\" ++ String.singleton (Char.ofNat 39)
  else if c.val == 10 then "\\n"
  else if c.val == 13 then "\\r"
  else if c.val == 9 then "\\t"
  else String.singleton c

/-- Python `repr` of a string, single-quote style (the style Python uses for
strings not containing a single quote). -/
def pyQuote (s : String) : String :=
  String.singleton (Char.ofNat 39) ++ String.join (s.toList.map pyEscapeChar)
    ++ String.singleton (Char.ofNat 39)

mutual
/-- Python `repr(j)` for parsed-JSON values; reached by `str` only for
values nested inside containers. -/
def pyRepr : Json → String
  | .null => "None"
  | .bool b => cond b "True" "False"
  | .num n => toString n
  | .str s => pyQuote s
  | .arr xs => "[" ++ String.intercalate ", " (pyReprList xs) ++ "]"
  | .obj fields => "\x7b" ++ String.intercalate ", " (pyReprObj fields) ++ "\x7d"

def pyReprList : List Json → List String
  | [] => []
  | x :: xs => pyRepr x :: pyReprList xs

def pyReprObj : List (String × Json) → List String
  | [] => []
  | p :: ps => (pyQuote p.1 ++ ": " ++ pyRepr p.2) :: pyReprObj ps
end

/-- Python `str(j)` / `f"...{j}..."` conversion of a parsed-JSON value. -/
def pyStr (j : Json) : String :=
  match j with
  | .str s => s
  | .null => "None"
  | .bool b => cond b "True" "False"
  | .num n => toString n
  | .arr xs => pyRepr (.arr xs)
  | .obj fields => pyRepr (.obj fields)

/-- A valid news article record: the four string fields the spec data model
prescribes. -/
structure Article where
  published : String
  title : String
  description : String
  link : String
  deriving DecidableEq

/-- The JSON object `update_news_data` builds for one article and
`json.dump` writes: keys `Published`, `Title`, `Description`, `Link` in that
insertion order. -/
def articleToJson (a : Article) : Json :=
  .obj [("Published", .str a.published), ("Title", .str a.title),
        ("Description", .str a.description), ("Link", .str a.link)]

/-- The JSON document for a whole article collection. -/
def articlesToJson (c : List Article) : Json :=
  .arr (c.map articleToJson)

/-- Decode a JSON value back into an `Article` (all four fields present and
strings). -/
def decodeArticle (j : Json) : Option Article :=
  match objGet? j "Published", objGet? j "Title",
        objGet? j "Description", objGet? j "Link" with
  | some (.str p), some (.str t), some (.str d), some (.str l) =>
      some ⟨p, t, d, l⟩
  | _, _, _, _ => none

/-- Decode a list of JSON values back into articles. -/
def decodeList : List Json → Option (List Article)
  | [] => some []
  | j :: js => do
      let a ← decodeArticle j
      let rest ← decodeList js
      some (a :: rest)

/-- Decode a JSON document back into an article collection. -/
def decodeArticles (j : Json) : Option (List Article) :=
  match j with
  | .arr xs => decodeList xs
  | _ => none

/-- File state after `json.dump(articles, f, indent=2)` succeeds for a valid
collection: the file holds the serialization of that collection. -/
def saveFile (c : List Article) : FileState :=
  .json (articlesToJson c)

/-- `NewsFeedManager.get_file_contents` (lines 101-116): `json.load` the
backing file; a missing file (`FileNotFoundError`) or invalid JSON
(`json.JSONDecodeError`) is caught and degraded to the empty list `[]`. -/
def get_file_contents (fs : FileState) : Json :=
  match fs with
  | .absent => .arr []
  | .invalid => .arr []
  | .json j => j

/-- The list comprehension `[article["Title"] for article in articles]` of
`get_all_titles`. -/
def titlesOf : List Json → Except PyError (List Json)
  | [] => .ok []
  | a :: rest => do
      let t ← jsonIndex a "Title"
      let ts ← titlesOf rest
      .ok (t :: ts)

/-- `NewsFeedManager.get_all_titles` (lines 75-83). -/
def get_all_titles (fs : FileState) : Except PyError (List Json) := do
  let articles := get_file_contents fs
  let xs ← pyIter articles
  titlesOf xs

/-- The scan loop of `get_article_info`: return the first element whose
`"Title"` entry compares `==` to the given Python string. -/
def findArticle (title : String) : List Json → Except PyError (Option Json)
  | [] => .ok none
  | a :: rest => do
      let t ← jsonIndex a "Title"
      match t with
      | .str s => if s == title then .ok (some a) else findArticle title rest
      | _ => findArticle title rest

/-- `NewsFeedManager.get_article_info` (lines 85-99): first-match linear
scan by `article["Title"] == title`, `None` when no match. -/
def get_article_info (fs : FileState) (title : String) :
    Except PyError (Option Json) := do
  let articles := get_file_contents fs
  let xs ← pyIter articles
  findArticle title xs

/-- The article dict built for one feed item in `update_news_data`
(lines 59-66): `{"Published": item["pubDate"], "Title": item["title"],
"Description": item.get("description", "No description"),
"Link": item["link"]}`, with the field expressions evaluated left to
right. -/
def mkArticle (item : Json) : Except PyError Json := do
  let pub ← jsonIndex item "pubDate"
  let title ← jsonIndex item "title"
  let desc ← dictGet item "description" (.str "No description")
  let link ← jsonIndex item "link"
  .ok (.obj [("Published", pub), ("Title", title),
             ("Description", desc), ("Link", link)])

/-- The list comprehension `[{...} for item in items]` over the extracted
item sequence. -/
def mapItems : List Json → Except PyError (List Json)
  | [] => .ok []
  | it :: rest => do
      let a ← mkArticle it
      let as ← mapItems rest
      .ok (a :: as)

/-- `data["attributes"]["rss"]["channel"]["item"]` (line 58). -/
def extractItems (data : Json) : Except PyError Json := do
  let a ← jsonIndex data "attributes"
  let r ← jsonIndex a "rss"
  let ch ← jsonIndex r "channel"
  jsonIndex ch "item"

/-- Everything `update_news_data` does for one sensor (lines 52-66):
the network interaction, `raise_for_status`, `response.json()`, the nested
item extraction, and the item-to-article mapping. -/
def fetchSensorArticles (r : FetchResult) : Except PyError (List Json) :=
  match r with
  | .transportError => .error .transportError
  | .httpError => .error .httpStatusError
  | .jsonError => .error .jsonDecodeError
  | .ok body => do
      let items ← extractItems body
      let xs ← pyIter items
      mapItems xs

/-- The sensor loop of `update_news_data` (lines 50-66): sensors are
processed in order, each sensor's articles are appended with
`articles.extend(...)`, and the first exception aborts the loop. -/
def fetchArticles : List FetchResult → Except PyError (List Json)
  | [] => .ok []
  | r :: rest => do
      let as ← fetchSensorArticles r
      let more ← fetchArticles rest
      .ok (as ++ more)

/-- `NewsFeedManager.update_news_data` (lines 42-73).  `fetches` is the
per-sensor network outcome, one entry per configured sensor in order;
`writeOk` is the outcome of `open(self.output_file, "w")` +
`json.dump(articles, f, indent=2)`, whose failure (modelled as the `open`
call raising) leaves the prior file contents in place.  All fetching
happens before the file is opened, so a fetch failure always leaves the
file untouched; the `try`/`except` converts every exception into the
return value `False`. -/
def update_news_data (fetches : List FetchResult) (writeOk : Bool)
    (fs : FileState) : Bool × FileState :=
  match fetchArticles fetches with
  | .error _ => (false, fs)
  | .ok articles =>
      if writeOk then (true, FileState.json (.arr articles))
      else (false, fs)

/-- One article block of `get_file_data` in text mode:
`"\n".join(f"{key}: {value}" for key, value in article.items())`;
`.items()` exists only on dicts. -/
def renderArticle (a : Json) : Except PyError String :=
  match a with
  | .obj fields =>
      .ok (String.intercalate "\n"
        (fields.map (fun p => p.1 ++ ": " ++ pyStr p.2)))
  | _ => .error .attributeError

/-- The outer generator of `get_file_data` in text mode, one rendered block
per article. -/
def renderBlocks : List Json → Except PyError (List String)
  | [] => .ok []
  | a :: rest => do
      let b ← renderArticle a
      let bs ← renderBlocks rest
      .ok (b :: bs)

/-- `get_file_data(manager, "text")` (lines 169-184, text branch): empty or
falsy file contents render as `""`; otherwise the article blocks are joined
with `"\n\n"`. -/
def get_file_data_text (fs : FileState) : Except PyError String :=
  let fc := get_file_contents fs
  if pyFalsy fc then .ok ""
  else do
    let xs ← pyIter fc
    let blocks ← renderBlocks xs
    .ok (String.intercalate "\n\n" blocks)

/-- The fixed Home Assistant base endpoint (line 17). -/
def ha_url : String := "http://192.168.123.199:8123"

/-- `NewsFeedManager._load_ha_token` (lines 31-40): reads the `HA_TOKEN`
process environment variable, raising `RuntimeError` when it is absent.
The process environment is modelled as a map from variable names to
optional values. -/
def _load_ha_token (env : String → Option String) : Except PyError String :=
  match env "HA_TOKEN" with
  | none => .error .runtimeError
  | some t => .ok t

/-- The request `update_news_data` issues for one sensor (lines 52-56): the
URL `f"{self.ha_url}/api/states/{sensor}"` and the header value
`f"Bearer {self.ha_token}"`, where `self.ha_token` was loaded from the
environment by `_load_ha_token` in `__init__` (line 27). -/
def fetchRequest (env : String → Option String) (sensor : String) :
    Except PyError (String × String) := do
  let token ← _load_ha_token env
  .ok (ha_url ++ "/api/states/" ++ sensor, "Bearer " ++ token)

/-- A feed payload whose items live at `attributes.rss.channel.item`, used
to instantiate successful-fetch scenarios. -/
def mkPayload (items : List Json) : Json :=
  .obj [("attributes", .obj [("rss", .obj [("channel",
    .obj [("item", .arr items)])])])]

/-- Specification-side mapping of one feed item to its article object:
`Published`/`Title`/`Link` from the item's `pubDate`/`title`/`link` fields,
`Description` from its `description` field with the sentinel
`"No description"` when absent. -/
def specArticle (item : Json) : Json :=
  .obj [("Published", (objGet? item "pubDate").getD .null),
        ("Title", (objGet? item "title").getD .null),
        ("Description", (objGet? item "description").getD (.str "No description")),
        ("Link", (objGet? item "link").getD .null)]

/-- A feed item carrying its required `pubDate`, `title` and `link`
fields. -/
def itemOkb (item : Json) : Bool :=
  (objGet? item "pubDate").isSome && (objGet? item "title").isSome
    && (objGet? item "link").isSome

theorem exBind_ok {α β : Type} (a : α) (k : α → Except PyError β) :
    (Except.ok a >>= k) = k a := rfl

theorem exBind_err {α β : Type} (e : PyError) (k : α → Except PyError β) :
    ((Except.error e : Except PyError α) >>= k) = .error e := rfl

/-- C3: `get_file_contents` on a backing file that is absent, or that
exists but contains invalid JSON, returns the empty collection; being a
total function of the file state, it raises nothing to the caller. -/
theorem get_file_contents_degraded_empty :
    get_file_contents FileState.absent = Json.arr []
      ∧ get_file_contents FileState.invalid = Json.arr [] :=
  ⟨rfl, rfl⟩

theorem decodeArticle_articleToJson (a : Article) :
    decodeArticle (articleToJson a) = some a := rfl

/-- C4: saving a valid article collection and then loading it yields the
serialized document verbatim, and decoding that document recovers the
collection field-for-field in the same order (round-trip law). -/
theorem save_load_round_trip (c : List Article) :
    get_file_contents (saveFile c) = articlesToJson c
      ∧ decodeArticles (get_file_contents (saveFile c)) = some c := by
  refine ⟨rfl, ?_⟩
  show decodeArticles (articlesToJson c) = some c
  induction c with
  | nil => rfl
  | cons a c ih =>
      have ih' : decodeList (c.map articleToJson) = some c := ih
      show decodeList ((a :: c).map articleToJson) = some (a :: c)
      simp [decodeList, List.map_cons, decodeArticle_articleToJson, ih']

/-- C6: `get_article_info` on a stored collection returns the first
article in collection order whose `Title` equals the query by exact string
equality, and `None` when no article matches (including the empty
collection). -/
theorem get_article_info_first_match (c : List Article) (t : String) :
    get_article_info (saveFile c) t
      = .ok ((c.find? (fun a => a.title == t)).map articleToJson) := by
  show findArticle t (c.map articleToJson)
      = .ok ((c.find? (fun a => a.title == t)).map articleToJson)
  induction c with
  | nil => rfl
  | cons a c ih =>
      have hT : jsonIndex (articleToJson a) "Title" = .ok (.str a.title) := rfl
      by_cases h : a.title = t
      · simp [findArticle, hT, exBind_ok, h]
      · simp [findArticle, hT, exBind_ok, h, ih]

theorem titlesOf_map (c : List Article) :
    titlesOf (c.map articleToJson) = .ok (c.map (fun a => Json.str a.title)) := by
  induction c with
  | nil => rfl
  | cons a c ih =>
      have hT : jsonIndex (articleToJson a) "Title" = .ok (.str a.title) := rfl
      simp [titlesOf, hT, exBind_ok, ih]

/-- C7: on a stored collection, `get_all_titles` and `get_file_contents`
agree: the title list and the dumped article list have equal length, and
the i-th title is exactly the `Title` field of the i-th dumped article,
with no uniqueness filtering or reordering. -/
theorem get_all_titles_agrees_with_dump (c : List Article) :
    ∃ ts ds, get_all_titles (saveFile c) = .ok ts
      ∧ get_file_contents (saveFile c) = Json.arr ds
      ∧ ts.length = ds.length
      ∧ ∀ i : Nat, ts[i]? = (ds[i]?).bind (fun a => objGet? a "Title") := by
  have h1 : get_all_titles (saveFile c) = .ok (c.map (fun a => Json.str a.title)) :=
    titlesOf_map c
  refine ⟨c.map (fun a => Json.str a.title), c.map articleToJson,
    h1, rfl, by simp, ?_⟩
  intro i
  simp only [List.getElem?_map]
  cases getElem? c i with
  | none => rfl
  | some a => rfl

theorem fetchArticles_ok_iff (l : List FetchResult) :
    (∃ as, fetchArticles l = .ok as)
      ↔ ∀ r ∈ l, ∃ as, fetchSensorArticles r = .ok as := by
  induction l with
  | nil => simp [fetchArticles]
  | cons r rest ih =>
      constructor
      · rintro ⟨as, h⟩ r2 hr2
        cases hf : fetchSensorArticles r with
        | error e =>
            rw [fetchArticles, hf, exBind_err] at h
            exact Except.noConfusion h
        | ok as1 =>
            cases hrest : fetchArticles rest with
            | error e =>
                rw [fetchArticles, hf, exBind_ok, hrest, exBind_err] at h
                exact Except.noConfusion h
            | ok as2 =>
                rcases List.mem_cons.mp hr2 with rfl | hmem
                · exact ⟨as1, hf⟩
                · exact (ih.mp ⟨as2, hrest⟩) r2 hmem
      · intro h
        obtain ⟨as1, hf⟩ := h r (List.mem_cons_self r rest)
        obtain ⟨as2, hrest⟩ := ih.mpr (fun r2 hr2 => h r2 (List.mem_cons_of_mem r hr2))
        exact ⟨as1 ++ as2, by rw [fetchArticles, hf, exBind_ok, hrest, exBind_ok]⟩

/-- C1: `update_news_data` returns `True` exactly when processing every
configured source succeeds and the file write succeeds; being a total
function of the fetch and write outcomes, every modelled exception is
converted into the return value `False` rather than propagated. -/
theorem update_news_data_true_iff (f : List FetchResult) (w : Bool)
    (fs : FileState) :
    (update_news_data f w fs).1 = true
      ↔ ((∀ r ∈ f, ∃ as, fetchSensorArticles r = .ok as) ∧ w = true) := by
  cases hf : fetchArticles f with
  | error e =>
      simp only [update_news_data, hf]
      constructor
      · intro h; exact absurd h (by simp)
      · rintro ⟨hall, -⟩
        obtain ⟨as, h⟩ := (fetchArticles_ok_iff f).mpr hall
        rw [hf] at h
        exact Except.noConfusion h
  | ok as =>
      have hall := (fetchArticles_ok_iff f).mp ⟨as, hf⟩
      cases w with
      | true =>
          simp [update_news_data, hf]
          exact hall
      | false => simp [update_news_data, hf]

/-- C2: when any source fetch fails, `update_news_data` returns `False`
and the store file is left in exactly its prior state (absent stays
absent, existing contents stay untouched), because every fetch happens
before the file is opened for writing. -/
theorem update_news_data_fetch_failure_leaves_file
    (f : List FetchResult) (w : Bool) (fs : FileState)
    (h : ∃ r ∈ f, ∃ e, fetchSensorArticles r = .error e) :
    update_news_data f w fs = (false, fs) := by
  cases hf : fetchArticles f with
  | error e => simp [update_news_data, hf]
  | ok as =>
      obtain ⟨r, hr, e, he⟩ := h
      obtain ⟨as1, hok⟩ := (fetchArticles_ok_iff f).mp ⟨as, hf⟩ r hr
      rw [he] at hok
      exact Except.noConfusion hok

theorem update_news_data_fetch_failure_witness :
    update_news_data [FetchResult.ok (mkPayload []), FetchResult.httpError]
        true FileState.absent = (false, FileState.absent) :=
  update_news_data_fetch_failure_leaves_file _ _ _
    ⟨FetchResult.httpError, by simp, PyError.httpStatusError, rfl⟩

theorem renderArticle_articleToJson (a : Article) :
    renderArticle (articleToJson a)
      = .ok (String.intercalate "\n"
          ["Published: " ++ a.published, "Title: " ++ a.title,
           "Description: " ++ a.description, "Link: " ++ a.link]) := rfl

theorem renderBlocks_map (c : List Article) :
    renderBlocks (c.map articleToJson)
      = .ok (c.map (fun a => String.intercalate "\n"
          ["Published: " ++ a.published, "Title: " ++ a.title,
           "Description: " ++ a.description, "Link: " ++ a.link])) := by
  induction c with
  | nil => rfl
  | cons a c ih =>
      simp [renderBlocks, renderArticle_articleToJson, exBind_ok, ih]

/-- C8: in text output mode, dumping a stored collection renders each
article as newline-joined `field: value` pairs with fields in the order
`Published`, `Title`, `Description`, `Link`, and joins consecutive article
blocks with exactly one blank line (`"\n\n"` between adjacent blocks). -/
theorem get_file_data_text_blocks :
    (∀ c : List Article, get_file_data_text (saveFile c)
        = .ok (String.intercalate "\n\n" (c.map (fun a => String.intercalate "\n"
            ["Published: " ++ a.published, "Title: " ++ a.title,
             "Description: " ++ a.description, "Link: " ++ a.link]))))
      ∧ (∀ a b : Article, get_file_data_text (saveFile [a, b])
          = .ok ((("Published: " ++ a.published) ++ "\n" ++ ("Title: " ++ a.title)
                ++ "\n" ++ ("Description: " ++ a.description) ++ "\n"
                ++ ("Link: " ++ a.link))
              ++ "\n\n"
              ++ (("Published: " ++ b.published) ++ "\n" ++ ("Title: " ++ b.title)
                ++ "\n" ++ ("Description: " ++ b.description) ++ "\n"
                ++ ("Link: " ++ b.link)))) := by
  have hmain : ∀ c : List Article, get_file_data_text (saveFile c)
      = .ok (String.intercalate "\n\n" (c.map (fun a => String.intercalate "\n"
          ["Published: " ++ a.published, "Title: " ++ a.title,
           "Description: " ++ a.description, "Link: " ++ a.link]))) := by
    intro c
    cases c with
    | nil => rfl
    | cons a c2 =>
        have hb := renderBlocks_map (a :: c2)
        rw [List.map_cons] at hb
        simp [get_file_data_text, saveFile, get_file_contents, articlesToJson,
          pyFalsy, pyIter, exBind_ok, hb]
  refine ⟨hmain, ?_⟩
  intro a b
  rw [hmain [a, b]]
  rfl

theorem mkArticle_ok (item : Json) (h : itemOkb item = true) :
    mkArticle item = .ok (specArticle item) := by
  cases item with
  | obj fields =>
      rcases hfp : fields.find? (fun q => q.1 == "pubDate") with - | pr
      · simp [itemOkb, objGet?, hfp] at h
      rcases hft : fields.find? (fun q => q.1 == "title") with - | tr
      · simp [itemOkb, objGet?, hft] at h
      rcases hfl : fields.find? (fun q => q.1 == "link") with - | lr
      · simp [itemOkb, objGet?, hfl] at h
      simp [mkArticle, jsonIndex, dictGet, specArticle, objGet?, hfp, hft, hfl,
        exBind_ok]
  | null => simp [itemOkb, objGet?] at h
  | bool b => simp [itemOkb, objGet?] at h
  | num n => simp [itemOkb, objGet?] at h
  | str s => simp [itemOkb, objGet?] at h
  | arr xs => simp [itemOkb, objGet?] at h

theorem mapItems_ok (its : List Json) (h : ∀ it ∈ its, itemOkb it = true) :
    mapItems its = .ok (its.map specArticle) := by
  induction its with
  | nil => rfl
  | cons it rest ih =>
      have h1 := mkArticle_ok it (h it (List.mem_cons_self it rest))
      have h2 := ih (fun x hx => h x (List.mem_cons_of_mem it hx))
      simp [mapItems, h1, h2, exBind_ok]

theorem fetchSensorArticles_payload (p : Json) (its : List Json)
    (hp : extractItems p = .ok (.arr its))
    (h : ∀ it ∈ its, itemOkb it = true) :
    fetchSensorArticles (.ok p) = .ok (its.map specArticle) := by
  simp [fetchSensorArticles, hp, pyIter, exBind_ok, mapItems_ok its h]

theorem fetchArticles_payloads (srcs : List (Json × List Json))
    (hp : ∀ pr ∈ srcs, extractItems pr.1 = .ok (.arr pr.2))
    (hi : ∀ pr ∈ srcs, ∀ it ∈ pr.2, itemOkb it = true) :
    fetchArticles (srcs.map (fun pr => FetchResult.ok pr.1))
      = .ok (((srcs.map (fun pr => pr.2)).flatten).map specArticle) := by
  induction srcs with
  | nil => rfl
  | cons pr srcs ih =>
      have h1 := fetchSensorArticles_payload pr.1 pr.2
        (hp pr (List.mem_cons_self pr srcs))
        (hi pr (List.mem_cons_self pr srcs))
      have h2 := ih (fun x hx => hp x (List.mem_cons_of_mem pr hx))
        (fun x hx => hi x (List.mem_cons_of_mem pr hx))
      simp [fetchArticles, h1, h2, exBind_ok, List.flatten_cons, List.map_append]

/-- C5: a successful refresh over sources whose payloads each carry an
`attributes.rss.channel.item` sequence of items with the required
`pubDate`, `title` and `link` fields persists exactly the concatenation of
the per-source item lists in source order, item order preserved, each item
mapped to `specArticle` (`Published`/`Title`/`Link` from
`pubDate`/`title`/`link`, `Description` from `description` with the
`"No description"` sentinel when absent). -/
theorem refresh_persists_concatenation (srcs : List (Json × List Json))
    (fs : FileState)
    (hp : ∀ pr ∈ srcs, extractItems pr.1 = .ok (.arr pr.2))
    (hi : ∀ pr ∈ srcs, ∀ it ∈ pr.2, itemOkb it = true) :
    update_news_data (srcs.map (fun pr => FetchResult.ok pr.1)) true fs
      = (true, FileState.json (Json.arr
          (((srcs.map (fun pr => pr.2)).flatten).map specArticle))) := by
  simp [update_news_data, fetchArticles_payloads srcs hp hi]

theorem refresh_persists_concatenation_witness :
    update_news_data
        [FetchResult.ok (mkPayload [Json.obj [("pubDate", Json.str "Mon, 01 Jan 2024"),
            ("title", Json.str "A"), ("link", Json.str "http://x")]]),
         FetchResult.ok (mkPayload [Json.obj [("pubDate", Json.str "Tue, 02 Jan 2024"),
            ("title", Json.str "B"), ("description", Json.str "d"),
            ("link", Json.str "http://y")]])]
        true FileState.absent
      = (true, FileState.json (Json.arr
          [Json.obj [("Published", Json.str "Mon, 01 Jan 2024"),
             ("Title", Json.str "A"),
             ("Description", Json.str "No description"),
             ("Link", Json.str "http://x")],
           Json.obj [("Published", Json.str "Tue, 02 Jan 2024"),
             ("Title", Json.str "B"),
             ("Description", Json.str "d"),
             ("Link", Json.str "http://y")]])) := by
  have hp : ∀ pr ∈ ([(mkPayload [Json.obj [("pubDate", Json.str "Mon, 01 Jan 2024"),
        ("title", Json.str "A"), ("link", Json.str "http://x")]],
        [Json.obj [("pubDate", Json.str "Mon, 01 Jan 2024"),
          ("title", Json.str "A"), ("link", Json.str "http://x")]]),
      (mkPayload [Json.obj [("pubDate", Json.str "Tue, 02 Jan 2024"),
        ("title", Json.str "B"), ("description", Json.str "d"),
        ("link", Json.str "http://y")]],
        [Json.obj [("pubDate", Json.str "Tue, 02 Jan 2024"),
          ("title", Json.str "B"), ("description", Json.str "d"),
          ("link", Json.str "http://y")]])] : List (Json × List Json)),
      extractItems pr.1 = Except.ok (Json.arr pr.2) := by
    intro pr hpr
    rcases List.mem_cons.mp hpr with rfl | hpr2
    · rfl
    rcases List.mem_cons.mp hpr2 with rfl | hpr3
    · rfl
    simp at hpr3
  have hi : ∀ pr ∈ ([(mkPayload [Json.obj [("pubDate", Json.str "Mon, 01 Jan 2024"),
        ("title", Json.str "A"), ("link", Json.str "http://x")]],
        [Json.obj [("pubDate", Json.str "Mon, 01 Jan 2024"),
          ("title", Json.str "A"), ("link", Json.str "http://x")]]),
      (mkPayload [Json.obj [("pubDate", Json.str "Tue, 02 Jan 2024"),
        ("title", Json.str "B"), ("description", Json.str "d"),
        ("link", Json.str "http://y")]],
        [Json.obj [("pubDate", Json.str "Tue, 02 Jan 2024"),
          ("title", Json.str "B"), ("description", Json.str "d"),
          ("link", Json.str "http://y")]])] : List (Json × List Json)),
      ∀ it ∈ pr.2, itemOkb it = true := by
    intro pr hpr it hit
    rcases List.mem_cons.mp hpr with rfl | hpr2
    · rcases List.mem_cons.mp hit with rfl | hit2
      · rfl
      · simp at hit2
    rcases List.mem_cons.mp hpr2 with rfl | hpr3
    · rcases List.mem_cons.mp hit with rfl | hit2
      · rfl
      · simp at hit2
    simp at hpr3
  exact refresh_persists_concatenation _ FileState.absent hp hi

/-- C9 (counterexample): the fetch request of `update_news_data` is built
from the `HA_TOKEN` process environment variable read by `_load_ha_token`
inside the constructor, not from a credential argument: two environments
that differ only in `HA_TOKEN` produce different authorization headers for
the same sensor, and an environment without `HA_TOKEN` makes construction
raise instead of fetching. -/
theorem fetch_reads_environment_counterexample :
    fetchRequest (fun k => if k == "HA_TOKEN" then some "tokenA" else none)
        "sensor.x"
        = .ok ("http://192.168.123.199:8123/api/states/sensor.x", "Bearer tokenA")
      ∧ fetchRequest (fun k => if k == "HA_TOKEN" then some "tokenB" else none)
        "sensor.x"
        = .ok ("http://192.168.123.199:8123/api/states/sensor.x", "Bearer tokenB")
      ∧ ("Bearer tokenA" : String) ≠ "Bearer tokenB"
      ∧ fetchRequest (fun _ => none) "sensor.x" = .error PyError.runtimeError :=
  ⟨rfl, rfl, by decide, rfl⟩

/-- C9 (amended): the manager reads the feed-source credential from the
`HA_TOKEN` environment variable in its constructor rather than receiving
it as an argument; the fetch behavior depends on the process environment
only through `HA_TOKEN` — two environments agreeing on `HA_TOKEN` produce
identical fetch requests. -/
theorem fetch_depends_only_on_ha_token
    (env env2 : String → Option String) (s : String)
    (h : env "HA_TOKEN" = env2 "HA_TOKEN") :
    fetchRequest env s = fetchRequest env2 s := by
  simp [fetchRequest, _load_ha_token, h]

theorem fetch_depends_only_on_ha_token_witness :
    fetchRequest (fun k => if k == "HA_TOKEN" then some "tokenA" else none)
        "sensor.x"
      = fetchRequest (fun _ => some "tokenA") "sensor.x" :=
  fetch_depends_only_on_ha_token _ _ _ rfl

/-- C10: `get_file_contents` performs no shape validation on well-formed
JSON: a non-empty array whose element lacks a `Title` field is returned
verbatim, and `get_all_titles` on that same store raises `KeyError`
instead of returning a list; `get_all_titles` is total when every element
of the parsed array is an object carrying a `Title` key. -/
theorem load_no_shape_validation :
    get_file_contents (FileState.json
        (Json.arr [Json.obj [("Published", Json.str "p")]]))
        = Json.arr [Json.obj [("Published", Json.str "p")]]
      ∧ get_all_titles (FileState.json
        (Json.arr [Json.obj [("Published", Json.str "p")]]))
        = .error PyError.keyError
      ∧ ∀ items : List Json,
          (∀ it ∈ items, (objGet? it "Title").isSome = true) →
          ∃ ts, get_all_titles (FileState.json (Json.arr items)) = .ok ts := by
  refine ⟨rfl, rfl, ?_⟩
  intro items
  show (∀ it ∈ items, (objGet? it "Title").isSome = true) →
      ∃ ts, titlesOf items = .ok ts
  induction items with
  | nil => exact fun _ => ⟨[], rfl⟩
  | cons it rest ih =>
      intro h
      obtain ⟨ts, hts⟩ := ih (fun x hx => h x (List.mem_cons_of_mem it hx))
      have h1 := h it (List.mem_cons_self it rest)
      cases it with
      | obj fields =>
          rcases hf : fields.find? (fun q => q.1 == "Title") with - | pr
          · simp [objGet?, hf] at h1
          · exact ⟨pr.2 :: ts, by simp [titlesOf, jsonIndex, hf, exBind_ok, hts]⟩
      | null => simp [objGet?] at h1
      | bool b => simp [objGet?] at h1
      | num n => simp [objGet?] at h1
      | str s => simp [objGet?] at h1
      | arr xs => simp [objGet?] at h1
